import Mathlib

/-
  Verification development for the OptiCV frontend pipeline.

  The definitions below are a shallow embedding of the TypeScript source:
  - frontend/src/lib/types.ts          (canonical data model)
  - frontend/src/lib/api.ts            (checkedFetch)
  - frontend/src/app/optimize/page.tsx (handleOptimize merge, handleEnhance)
  - the create page                    (buildExistingResumeText, updateExp,
                                        handleEnhance, loadSample)
  - frontend/src/components/resume-preview.tsx (project / experience render)

  JavaScript dynamic values are modelled explicitly: an optional string
  field is Option String (none = undefined/null), string truthiness is
  `strTruthy` (empty string and none are falsy), `x || y` on strings is
  `jsOrS` / `jsOrOpt`, and `x ?? y` on possibly-absent values is
  Option.getD.  String.prototype.toLowerCase, split, and trim are modelled
  character-wise (jsToLower, jsSplit, jsTrim); the strings this code
  compares are ASCII.
-/

/-- JS `s.toLowerCase()`, character-wise. -/
def jsToLower (s : String) : String := String.mk (s.data.map Char.toLower)

/-- Split a character list at every separator, keeping empty pieces, as
    JS `String.prototype.split` with a single-character-class regex does. -/
def splitByPred (p : Char → Bool) : List Char → List Char → List String
  | [], acc => [String.mk acc.reverse]
  | c :: cs, acc =>
      if p c then String.mk acc.reverse :: splitByPred p cs []
      else splitByPred p cs (c :: acc)

/-- JS `s.split(sep-class)`. -/
def jsSplit (s : String) (p : Char → Bool) : List String := splitByPred p s.data []

/-- JS `s.trim()` (whitespace at both ends removed). -/
def jsTrim (s : String) : String :=
  String.mk (((s.data.dropWhile Char.isWhitespace).reverse.dropWhile Char.isWhitespace).reverse)

/-- JS truthiness of a possibly-absent string: undefined/null and "" are falsy. -/
def strTruthy : Option String → Bool
  | none => false
  | some s => s != ""

/-- JS `a || b` on two plain strings. -/
def jsOrS (a b : String) : String := if a = "" then b else a

/-- JS `a || b` where `a` is a possibly-absent string and `b` a plain string. -/
def jsOrOpt (a : Option String) (b : String) : String :=
  if strTruthy a then a.getD "" else b

/-- JS `a || b || ""` on two possibly-absent strings (contact-field merge). -/
def jsOr2 (a b : Option String) : String :=
  if strTruthy a then a.getD "" else if strTruthy b then b.getD "" else ""

-- ── Canonical data model (frontend/src/lib/types.ts) ──

structure ExperienceEntry where
  job_title : String
  company : String
  location : Option String
  start_date : String
  end_date : Option String
  responsibilities : List String
deriving DecidableEq, Repr

structure EducationEntry where
  degree : String
  institution : String
  location : Option String
  graduation_date : String
  gpa : Option String
  relevant_coursework : Option (List String)
deriving DecidableEq, Repr

structure ProjectEntry where
  title : String
  description : String
  technologies : List String
  link : Option String
deriving DecidableEq, Repr

structure ResumeData where
  full_name : String
  phone : String
  email : String
  linkedin : Option String
  location : Option String
  target_role : String
  summary : String
  skills : List String
  experience : List ExperienceEntry
  education : List EducationEntry
  projects : List ProjectEntry
  certifications : List String
deriving DecidableEq, Repr

structure ATSScore where
  overall_score : Int
  keyword_match : Int
  section_completeness : Int
  role_alignment : Int
  formatting_score : Int
  content_quality : Int
  explanation : String
  missing_keywords : List String
  suggestions : List String
deriving DecidableEq, Repr

structure GenerateResponse where
  resume_data : ResumeData
  ats_score : ATSScore
deriving DecidableEq, Repr

-- ── ResumeForm (unnamed part): emptyResume and the sample loader ──

/-- `emptyResume()` from the resume-form component: the object literal has no
    linkedin/location keys, and every collection is an empty array. -/
def emptyResume : ResumeData :=
  { full_name := ""
  , phone := ""
  , email := ""
  , linkedin := none
  , location := none
  , target_role := ""
  , summary := ""
  , skills := []
  , experience := []
  , education := []
  , projects := []
  , certifications := [] }

/-- A parsed `/test_payload.json` sample: every field may be absent
    (undefined/null), which is what the `??` fallbacks in `loadSample` guard. -/
structure RawSample where
  full_name : Option String
  phone : Option String
  email : Option String
  target_role : Option String
  summary : Option String
  skills : Option (List String)
  experience : Option (List ExperienceEntry)
  education : Option (List EducationEntry)
  projects : Option (List ProjectEntry)
  certifications : Option (List String)
deriving DecidableEq, Repr

/-- The `setData({...})` construction inside `loadSample` of the resume-form
    component: each field is `sample.field ?? fallback`, collections falling
    back to `[]`.  The literal has no linkedin/location keys. -/
def loadSampleResume (s : RawSample) : ResumeData :=
  { full_name := s.full_name.getD ""
  , phone := s.phone.getD ""
  , email := s.email.getD ""
  , linkedin := none
  , location := none
  , target_role := s.target_role.getD ""
  , summary := s.summary.getD ""
  , skills := s.skills.getD []
  , experience := s.experience.getD []
  , education := s.education.getD []
  , projects := s.projects.getD []
  , certifications := s.certifications.getD [] }

-- ── handleOptimize merge (optimize/page.tsx lines 62-79) ──

/-- The `byTitle` Map of handleOptimize: originals with a truthy title are
    inserted keyed by lower-cased title, later entries overwriting earlier
    ones; `byTitle.get key` therefore returns the LAST original whose
    (nonempty) lower-cased title equals the key. -/
def byTitleGet (origs : List ProjectEntry) (key : String) : Option ProjectEntry :=
  (origs.filter (fun q => q.title != "" && jsToLower q.title == key)).getLast?

/-- Body of `merged.projects.map(...)`: look the rewritten project's
    lower-cased title up in the original map (`p.title || ""` is the identity
    on the non-optional title field) and patch the link when the rewrite's
    link is falsy and the original's is truthy. -/
def mergeProject (origs : List ProjectEntry) (p : ProjectEntry) : ProjectEntry :=
  match byTitleGet origs (jsToLower p.title) with
  | some orig =>
      if !strTruthy p.link && strTruthy orig.link then { p with link := orig.link } else p
  | none => p

/-- The reconciliation of handleOptimize: restore falsy contact fields from
    the original (`merged.linkedin = merged.linkedin || original.linkedin || ""`,
    same for location), then patch project links by lower-cased title. -/
def mergeOptimized (original rewritten : ResumeData) : ResumeData :=
  { rewritten with
    linkedin := some (jsOr2 rewritten.linkedin original.linkedin)
  , location := some (jsOr2 rewritten.location original.location)
  , projects := rewritten.projects.map (mergeProject original.projects) }

/-- handleOptimize state transition: on API success the optimized state is
    set to the merged result; on failure the catch block alerts
    "Optimization failed: ..." and the optimized state is untouched. -/
def handleOptimize (original : ResumeData) (prior : Option ResumeData)
    (apiResult : Except String GenerateResponse) :
    Option ResumeData × Option String :=
  match apiResult with
  | Except.error e => (prior, some ("Optimization failed: " ++ e))
  | Except.ok res => (some (mergeOptimized original res.resume_data), none)

-- ── checkedFetch (lib/api.ts lines 5-13) ──

/-- The observable parts of a fetch Response used by checkedFetch. -/
structure Response where
  ok : Bool
  status : Nat
  statusText : String
  body : String
deriving DecidableEq, Repr

/-- `checkedFetch`: a non-ok response throws
    `Error("API ${status} ${statusText}: ${text}")`; an ok response is
    returned unchanged. -/
def checkedFetch (r : Response) : Except String Response :=
  if r.ok then Except.ok r
  else Except.error ("API " ++ toString r.status ++ " " ++ r.statusText ++ ": " ++ r.body)

/-- `needle` occurs as a contiguous substring of `hay`. -/
def strContains (hay needle : String) : Prop :=
  ∃ p q : String, hay = p ++ needle ++ q

-- ── handleEnhance (optimize/page.tsx lines 90-106) ──

/-- The two field assignments of handleEnhance on the optimized resume:
    `if (section === "summary") updated.summary = res.enhanced_content;`
    `if (section === "skills") updated.skills = (res.enhanced_content || "").split("\n").filter(Boolean);` -/
def enhanceApply (sectionName : String) (content : String) (r : ResumeData) : ResumeData :=
  let u1 := if sectionName = "summary" then { r with summary := content } else r
  if sectionName = "skills"
  then { u1 with skills := (jsSplit (jsOrS content "") (fun c => c = '\n')).filter (fun s => s != "") }
  else u1

/-- Full handleEnhance of the optimize page: the API call happens first (a
    rejection lands in the catch block, which only alerts); then
    `if (!optimized) return;` guards, then the named section is replaced. -/
def handleEnhanceOpt (apiResult : Except String String) (sectionName : String)
    (optimized : Option ResumeData) : Option ResumeData × Option String :=
  match apiResult with
  | Except.error e => (optimized, some ("Enhancement failed: " ++ e))
  | Except.ok c =>
      match optimized with
      | none => (none, none)
      | some r => (some (enhanceApply sectionName c r), none)

/-- The create page's handleEnhance acts on the (summary, skills) string
    state pair: `if (section === "summary") setSummary(...)`,
    `if (section === "skills") setSkills(...)`. -/
def createEnhanceApply (sectionName : String) (content : String)
    (st : String × String) : String × String :=
  let u1 := if sectionName = "summary" then (content, st.2) else st
  if sectionName = "skills" then (u1.1, content) else u1

/-- Full handleEnhance of the create page: a rejected API call lands in an
    empty catch block (silently fail), leaving both fields unchanged. -/
def createHandleEnhance (apiResult : Except String String) (sectionName : String)
    (st : String × String) : String × String :=
  match apiResult with
  | Except.error _ => st
  | Except.ok c => createEnhanceApply sectionName c st

-- ── Create page: form entry types and serialization ──

structure EduEntry where
  degree : String
  institution : String
  location : String
  graduation_date : String
  gpa : String
deriving DecidableEq, Repr

structure ExpEntry where
  job_title : String
  company : String
  location : String
  start_date : String
  end_date : String
  responsibilities : String
deriving DecidableEq, Repr

structure ProjEntry where
  title : String
  description : String
  technologies : String
  link : String
deriving DecidableEq, Repr

/-- The education line of buildExistingResumeText. -/
def eduLine (e : EduEntry) : String :=
  "- " ++ e.degree ++ " from " ++ e.institution
    ++ (if e.location = "" then "" else ", " ++ e.location)
    ++ (if e.graduation_date = "" then "" else " (" ++ e.graduation_date ++ ")")
    ++ (if e.gpa = "" then "" else " — GPA: " ++ e.gpa)

/-- The head of the experience line of buildExistingResumeText, up to and
    including the dash before the end date. -/
def expLineHead (e : ExpEntry) : String :=
  "- " ++ e.job_title ++ " at " ++ e.company
    ++ (if e.location = "" then "" else ", " ++ e.location)
    ++ " | " ++ jsOrS e.start_date "N/A" ++ " – "

/-- The experience line of buildExistingResumeText:
    `- {job_title} at {company}{, location} | {start_date || "N/A"} – {end_date || "Present"}`. -/
def expLine (e : ExpEntry) : String :=
  expLineHead e ++ jsOrS e.end_date "Present"

/-- The responsibility bullet lines pushed after an experience line. -/
def expRespLines (e : ExpEntry) : List String :=
  if jsTrim e.responsibilities = "" then []
  else ((jsSplit e.responsibilities (fun c => c = '\n')).filter (fun r => r != "")).map
    (fun r => "  • " ++ jsTrim r)

/-- The lines pushed for one project of buildExistingResumeText. -/
def projLines (p : ProjEntry) : List String :=
  ["- " ++ p.title ++ (if p.link = "" then "" else " (" ++ p.link ++ ")")]
    ++ (if p.description = "" then [] else ["  " ++ p.description])
    ++ (if jsTrim p.technologies = "" then [] else ["  Technologies: " ++ p.technologies])

/-- `buildExistingResumeText`: serializes the optional form sections as
    readable blocks, returning undefined when every section is empty. -/
def buildExistingResumeText (education : List EduEntry) (experience : List ExpEntry)
    (projects : List ProjEntry) : Option String :=
  let filledEdu := education.filter (fun e => e.degree != "" || e.institution != "")
  let eduPart := if filledEdu.isEmpty then [] else "EDUCATION:" :: filledEdu.map eduLine
  let filledExp := experience.filter (fun e => e.job_title != "" || e.company != "")
  let expPart :=
    if filledExp.isEmpty then []
    else "\nEXPERIENCE:" :: filledExp.flatMap (fun e => expLine e :: expRespLines e)
  let filledProj := projects.filter (fun p => p.title != "")
  let projPart :=
    if filledProj.isEmpty then [] else "\nPROJECTS:" :: filledProj.flatMap projLines
  let parts := eduPart ++ expPart ++ projPart
  if parts.isEmpty then none else some (String.intercalate "\n" parts)

-- ── Create page: date parsing and updateExp ──

/-- The whitespace characters trimmed by JS parseInt (ASCII subset). -/
def isJsSpace (c : Char) : Bool :=
  c = ' ' || c = '\t' || c = '\n' || c = '\r' || c = '\x0b' || c = '\x0c'

/-- Value of a radix-10 digit character (code points 48-57). -/
def decDigitVal (c : Char) : Option Nat :=
  match c.toNat with
  | n => if 48 ≤ n ∧ n ≤ 57 then some (n - 48) else none

/-- Value of a radix-16 digit character: 0-9, then a-f (code points 97-102,
    value +87 below the code point) and A-F (65-70, value +55 below). -/
def hexDigitVal (c : Char) : Option Nat :=
  match c.toNat with
  | n =>
      if 48 ≤ n ∧ n ≤ 57 then some (n - 48)
      else if 97 ≤ n ∧ n ≤ 102 then some (n - 87)
      else if 65 ≤ n ∧ n ≤ 70 then some (n - 55)
      else none

/-- Accumulate the longest leading run of digits (JS parseInt ignores
    everything after the first non-digit). -/
def digitsToNat (val : Char → Option Nat) (base : Nat) : List Char → Nat → Nat
  | [], acc => acc
  | c :: cs, acc =>
      match val c with
      | some d => digitsToNat val base cs (acc * base + d)
      | none => acc

/-- Whether the string starts with at least one digit (else parseInt is NaN). -/
def hasLeadingDigit (val : Char → Option Nat) : List Char → Bool
  | [] => false
  | c :: _ => (val c).isSome

/-- Magnitude part of JS parseInt with default radix: a `0x`/`0X` prefix
    switches to hexadecimal, otherwise decimal; none models NaN. -/
def parseUnsigned : List Char → Option Nat
  | '0' :: 'x' :: t =>
      if hasLeadingDigit hexDigitVal t then some (digitsToNat hexDigitVal 16 t 0) else none
  | '0' :: 'X' :: t =>
      if hasLeadingDigit hexDigitVal t then some (digitsToNat hexDigitVal 16 t 0) else none
  | cs =>
      if hasLeadingDigit decDigitVal cs then some (digitsToNat decDigitVal 10 cs 0) else none

/-- JS `parseInt(s)` (radix unspecified): trim leading whitespace, optional
    sign, then the leading digit run; none models NaN. -/
def jsParseInt (s : String) : Option Int :=
  match s.data.dropWhile isJsSpace with
  | '-' :: t => (parseUnsigned t).map (fun n => -(n : Int))
  | '+' :: t => (parseUnsigned t).map (fun n => (n : Int))
  | cs => (parseUnsigned cs).map (fun n => (n : Int))

/-- A JS Date built by `new Date(year, monthIndex)`, represented by its total
    month count; none models an Invalid Date (a NaN component).  Years 0–99
    are interpreted as 1900+year by the Date constructor; month overflow
    carries into the year.  (The finite Date range cutoff of ±8.64e15 ms is
    not modelled; resume dates are far from it.) -/
def jsDateOfYearMonth (year monthIndex : Int) : Option Int :=
  some ((if 0 ≤ year ∧ year ≤ 99 then 1900 + year else year) * 12 + monthIndex)

/-- `parseDate` inside updateExp: split on `-` or `/`; exactly two nonempty
    parts build `new Date(parseInt(parts[1]), parseInt(parts[0]) - 1)`
    (otherwise null, the outer none).  A NaN from parseInt yields an Invalid
    Date (the inner none); the try/catch never fires. -/
def parseDate (d : String) : Option (Option Int) :=
  match jsSplit d (fun c => c = '-' || c = '/') with
  | [p0, p1] =>
      if p0 ≠ "" ∧ p1 ≠ "" then
        some (match jsParseInt p1, jsParseInt p0 with
              | some y, some m => jsDateOfYearMonth y (m - 1)
              | _, _ => none)
      else none
  | _ => none

/-- JS `start > end` on two Date values: comparisons involving an Invalid
    Date are false. -/
def dateGt : Option Int → Option Int → Bool
  | some a, some b => a > b
  | _, _ => false

inductive ExpField where
  | job_title | company | location | start_date | end_date | responsibilities
deriving DecidableEq, Repr

/-- The computed-key spread `{ ...entry, [field]: value }` on an ExpEntry. -/
def setExpField (e : ExpEntry) (f : ExpField) (v : String) : ExpEntry :=
  match f with
  | ExpField.job_title => { e with job_title := v }
  | ExpField.company => { e with company := v }
  | ExpField.location => { e with location := v }
  | ExpField.start_date => { e with start_date := v }
  | ExpField.end_date => { e with end_date := v }
  | ExpField.responsibilities => { e with responsibilities := v }

/-- `prev.map((e, idx) => idx === i ? {...e, [field]: value} : e)`. -/
def mapAtIdx (i : Nat) (g : ExpEntry → ExpEntry) : List ExpEntry → List ExpEntry
  | [] => []
  | x :: xs =>
      match i with
      | 0 => g x :: xs
      | n + 1 => x :: mapAtIdx n g xs

/-- `updateExp` of the create page, returning the new experience list and the
    alert message when the edit is rejected.  Editing a date field validates
    the provisional entry: when both dates are present, the end date is not
    the token "present" in any case, both parse to valid Dates and the start
    is strictly after the end, the previous state is returned unchanged with
    an alert; otherwise the provisional entry is stored.  (Indices come from
    the rendered rows and are always in range; the out-of-range none branch
    is a total-function placeholder outside the claims.) -/
def updateExp (prev : List ExpEntry) (i : Nat) (f : ExpField) (v : String) :
    List ExpEntry × Option String :=
  match f with
  | ExpField.start_date | ExpField.end_date =>
      match prev.get? i with
      | none => (prev, none)
      | some old =>
          let entry := setExpField old f v
          if entry.start_date ≠ "" ∧ entry.end_date ≠ "" ∧ jsToLower entry.end_date ≠ "present" then
            match parseDate entry.start_date, parseDate entry.end_date with
            | some s, some e =>
                if dateGt s e then (prev, some "Start date cannot be after end date.")
                else (prev.set i entry, none)
            | _, _ => (prev.set i entry, none)
          else (prev.set i entry, none)
  | _ => (mapAtIdx i (fun e => setExpField e f v) prev, none)

-- ── Resume preview (resume-preview.tsx) ──

/-- JS `s.startsWith(pre)`: character-level prefix test. -/
def jsStartsWith (s pre : String) : Bool := pre.data.isPrefixOf s.data

/-- The observable pieces of one rendered project row of the preview. -/
structure RenderedProject where
  title : String
  linkAnchor : Option String
  techLine : Option String
  descBullet : Option String
deriving DecidableEq, Repr

/-- One project of the preview: the GitHub anchor is rendered only when
    `proj.link && proj.link.startsWith("http")`; the technologies line only
    when the joined string is nonempty; the description bullet only when the
    description is truthy; the title is rendered unconditionally. -/
def renderProject (p : ProjectEntry) : RenderedProject :=
  let hasLink := strTruthy p.link && jsStartsWith (p.link.getD "") "http"
  let techs := String.intercalate ", " p.technologies
  { title := p.title
  , linkAnchor := if hasLink then some (p.link.getD "") else none
  , techLine := if techs = "" then none else some ("Technologies: " ++ techs)
  , descBullet := if p.description = "" then none else some p.description }

/-- The date range text of one experience row of the preview:
    `{exp.start_date} – {exp.end_date || "Present"}`. -/
def previewExpDates (exp : ExperienceEntry) : String :=
  exp.start_date ++ " – " ++ jsOrOpt exp.end_date "Present"

-- ── Theorems ──

/-- C4: enhancing section "summary" replaces only the summary field of the
    caller-held resume state — the skills list and every other field are
    unchanged; symmetrically, enhancing "skills" replaces only the skills
    field; the create page's (summary, skills) state pair behaves the same. -/
theorem enhance_section_isolation :
    ∀ (r : ResumeData) (c : String) (st : String × String),
      ((enhanceApply "summary" c r).summary = c
        ∧ (enhanceApply "summary" c r).skills = r.skills
        ∧ (enhanceApply "summary" c r).full_name = r.full_name
        ∧ (enhanceApply "summary" c r).phone = r.phone
        ∧ (enhanceApply "summary" c r).email = r.email
        ∧ (enhanceApply "summary" c r).linkedin = r.linkedin
        ∧ (enhanceApply "summary" c r).location = r.location
        ∧ (enhanceApply "summary" c r).target_role = r.target_role
        ∧ (enhanceApply "summary" c r).experience = r.experience
        ∧ (enhanceApply "summary" c r).education = r.education
        ∧ (enhanceApply "summary" c r).projects = r.projects
        ∧ (enhanceApply "summary" c r).certifications = r.certifications)
      ∧ ((enhanceApply "skills" c r).skills
            = (jsSplit (jsOrS c "") (fun ch => ch = '\n')).filter (fun s => s != "")
        ∧ (enhanceApply "skills" c r).summary = r.summary
        ∧ (enhanceApply "skills" c r).full_name = r.full_name
        ∧ (enhanceApply "skills" c r).phone = r.phone
        ∧ (enhanceApply "skills" c r).email = r.email
        ∧ (enhanceApply "skills" c r).linkedin = r.linkedin
        ∧ (enhanceApply "skills" c r).location = r.location
        ∧ (enhanceApply "skills" c r).target_role = r.target_role
        ∧ (enhanceApply "skills" c r).experience = r.experience
        ∧ (enhanceApply "skills" c r).education = r.education
        ∧ (enhanceApply "skills" c r).projects = r.projects
        ∧ (enhanceApply "skills" c r).certifications = r.certifications)
      ∧ (createEnhanceApply "summary" c st).2 = st.2
      ∧ (createEnhanceApply "skills" c st).1 = st.1 := by
  intro r c st
  repeat' apply And.intro
  all_goals rfl

/-- C5: when the underlying enhance API call fails, the caller-held content
    is left exactly as it was — the optimize page keeps its optimized resume
    state (and surfaces an alert), and the create page keeps both its summary
    and skills strings. -/
theorem enhance_failure_preserves_content :
    ∀ (e sectionName : String) (optimized : Option ResumeData) (st : String × String),
      (handleEnhanceOpt (Except.error e) sectionName optimized).1 = optimized
      ∧ (handleEnhanceOpt (Except.error e) sectionName optimized).2
          = some ("Enhancement failed: " ++ e)
      ∧ createHandleEnhance (Except.error e) sectionName st = st := by
  intro e sectionName optimized st
  exact ⟨rfl, rfl, rfl⟩

/-- C6: every ResumeData the frontend constructs — the empty resume and any
    resume built from a loaded sample payload — has skills, experience,
    education, projects and certifications present as sequences: the empty
    resume's are all [], and a loaded sample's are the payload's sequences
    when present and [] when the payload omits them. -/
theorem resume_collections_never_null :
    ∀ (s : RawSample),
      (emptyResume.skills = [] ∧ emptyResume.experience = []
        ∧ emptyResume.education = [] ∧ emptyResume.projects = []
        ∧ emptyResume.certifications = [])
      ∧ ((loadSampleResume s).skills = s.skills.getD []
        ∧ (loadSampleResume s).experience = s.experience.getD []
        ∧ (loadSampleResume s).education = s.education.getD []
        ∧ (loadSampleResume s).projects = s.projects.getD []
        ∧ (loadSampleResume s).certifications = s.certifications.getD [])
      ∧ (s.skills = none → (loadSampleResume s).skills = [])
      ∧ (s.experience = none → (loadSampleResume s).experience = [])
      ∧ (s.education = none → (loadSampleResume s).education = [])
      ∧ (s.projects = none → (loadSampleResume s).projects = [])
      ∧ (s.certifications = none → (loadSampleResume s).certifications = []) := by
  intro s
  repeat' apply And.intro
  all_goals first
    | rfl
    | (intro h
       simp [loadSampleResume, h])

/-- Witness for C6 at the all-absent sample payload: every collection of the
    constructed resume is the empty sequence. -/
theorem resume_collections_never_null_witness :
    (loadSampleResume ⟨none, none, none, none, none, none, none, none, none, none⟩).skills = []
    ∧ (loadSampleResume ⟨none, none, none, none, none, none, none, none, none, none⟩).experience = []
    ∧ (loadSampleResume ⟨none, none, none, none, none, none, none, none, none, none⟩).education = []
    ∧ (loadSampleResume ⟨none, none, none, none, none, none, none, none, none, none⟩).projects = []
    ∧ (loadSampleResume ⟨none, none, none, none, none, none, none, none, none, none⟩).certifications = [] :=
  ⟨(resume_collections_never_null ⟨none, none, none, none, none, none, none, none, none, none⟩).2.2.1 rfl,
   (resume_collections_never_null ⟨none, none, none, none, none, none, none, none, none, none⟩).2.2.2.1 rfl,
   (resume_collections_never_null ⟨none, none, none, none, none, none, none, none, none, none⟩).2.2.2.2.1 rfl,
   (resume_collections_never_null ⟨none, none, none, none, none, none, none, none, none, none⟩).2.2.2.2.2.1 rfl,
   (resume_collections_never_null ⟨none, none, none, none, none, none, none, none, none, none⟩).2.2.2.2.2.2 rfl⟩

/-- C9: for every non-ok response, checkedFetch throws (returns an error and
    never a result) whose message contains the status code, status text and
    response body; handleOptimize catches such a failure, leaves the
    optimized state untouched and surfaces a user-facing alert. -/
theorem checkedFetch_error_surfaced :
    ∀ (r : Response), r.ok = false →
      (checkedFetch r
          = Except.error ("API " ++ toString r.status ++ " " ++ r.statusText ++ ": " ++ r.body))
      ∧ strContains ("API " ++ toString r.status ++ " " ++ r.statusText ++ ": " ++ r.body)
          (toString r.status)
      ∧ strContains ("API " ++ toString r.status ++ " " ++ r.statusText ++ ": " ++ r.body)
          r.statusText
      ∧ strContains ("API " ++ toString r.status ++ " " ++ r.statusText ++ ": " ++ r.body)
          r.body
      ∧ (∀ (original : ResumeData) (prior : Option ResumeData) (e : String),
          handleOptimize original prior (Except.error e)
            = (prior, some ("Optimization failed: " ++ e))) := by
  intro r hok
  refine ⟨by simp [checkedFetch, hok], ?_, ?_, ?_, fun original prior e => rfl⟩
  · exact ⟨"API ", " " ++ r.statusText ++ ": " ++ r.body, by simp [String.append_assoc]⟩
  · exact ⟨"API " ++ toString r.status ++ " ", ": " ++ r.body, by simp [String.append_assoc]⟩
  · exact ⟨"API " ++ toString r.status ++ " " ++ r.statusText ++ ": ", "", by simp [String.append_assoc]⟩

/-- Witness for C9 at a concrete 500 response. -/
theorem checkedFetch_error_surfaced_witness :
    checkedFetch ⟨false, 500, "Internal Server Error", "boom"⟩
      = Except.error ("API " ++ toString (500 : Nat) ++ " " ++ "Internal Server Error" ++ ": " ++ "boom") :=
  (checkedFetch_error_surfaced ⟨false, 500, "Internal Server Error", "boom"⟩ rfl).1

/-- C8: wherever an experience entry is displayed — the existing-resume
    serialization of the create page and the live resume preview — an absent
    or empty end date renders as the literal token "Present", and a nonempty
    end date renders unchanged. -/
theorem end_date_renders_as_present :
    ∀ (e : ExpEntry) (x : ExperienceEntry),
      (e.end_date = "" → expLine e = expLineHead e ++ "Present")
      ∧ (e.end_date ≠ "" → expLine e = expLineHead e ++ e.end_date)
      ∧ ((x.end_date = none ∨ x.end_date = some "") →
          previewExpDates x = x.start_date ++ " – " ++ "Present")
      ∧ (∀ s, x.end_date = some s → s ≠ "" →
          previewExpDates x = x.start_date ++ " – " ++ s) := by
  intro e x
  refine ⟨fun h => ?_, fun h => ?_, fun h => ?_, fun s hs hne => ?_⟩
  · simp [expLine, jsOrS, h]
  · simp [expLine, jsOrS, h]
  · rcases h with h | h <;> simp [previewExpDates, jsOrOpt, strTruthy, h, String.append_assoc]
  · simp [previewExpDates, jsOrOpt, strTruthy, hs, hne, String.append_assoc]

/-- Witness for C8: a concrete ongoing entry renders "Present" in both
    places, and a concrete dated entry renders its end date unchanged. -/
theorem end_date_renders_as_present_witness :
    (expLine ⟨"Dev", "Acme", "", "01/2020", "", "x"⟩
        = expLineHead ⟨"Dev", "Acme", "", "01/2020", "", "x"⟩ ++ "Present")
    ∧ (expLine ⟨"Dev", "Acme", "", "01/2020", "12/2021", "x"⟩
        = expLineHead ⟨"Dev", "Acme", "", "01/2020", "12/2021", "x"⟩ ++ "12/2021")
    ∧ (previewExpDates ⟨"Dev", "Acme", none, "Jan 2020", none, []⟩
        = "Jan 2020" ++ " – " ++ "Present")
    ∧ (previewExpDates ⟨"Dev", "Acme", none, "Jan 2020", some "Dec 2021", []⟩
        = "Jan 2020" ++ " – " ++ "Dec 2021") :=
  ⟨(end_date_renders_as_present ⟨"Dev", "Acme", "", "01/2020", "", "x"⟩
      ⟨"Dev", "Acme", none, "Jan 2020", none, []⟩).1 rfl,
   (end_date_renders_as_present ⟨"Dev", "Acme", "", "01/2020", "12/2021", "x"⟩
      ⟨"Dev", "Acme", none, "Jan 2020", none, []⟩).2.1 (by decide),
   (end_date_renders_as_present ⟨"Dev", "Acme", "", "01/2020", "", "x"⟩
      ⟨"Dev", "Acme", none, "Jan 2020", none, []⟩).2.2.1 (Or.inl rfl),
   (end_date_renders_as_present ⟨"Dev", "Acme", "", "01/2020", "", "x"⟩
      ⟨"Dev", "Acme", none, "Jan 2020", some "Dec 2021", []⟩).2.2.2 "Dec 2021" rfl (by decide)⟩

/-- C10: the preview renders a project's hyperlink exactly when the link is
    truthy and starts with "http"; a nonempty link not starting with "http"
    renders no anchor at all, while the title, technologies line and
    description bullet do not depend on the link's shape. -/
theorem preview_link_gating :
    ∀ (p : ProjectEntry) (l1 l2 : Option String),
      ((renderProject p).linkAnchor.isSome
          = (strTruthy p.link && jsStartsWith (p.link.getD "") "http"))
      ∧ (strTruthy p.link = true → jsStartsWith (p.link.getD "") "http" = false →
          (renderProject p).linkAnchor = none)
      ∧ (renderProject { p with link := l1 }).title = p.title
      ∧ (renderProject { p with link := l1 }).techLine
          = (renderProject { p with link := l2 }).techLine
      ∧ (renderProject { p with link := l1 }).descBullet
          = (renderProject { p with link := l2 }).descBullet := by
  intro p l1 l2
  refine ⟨?_, fun h1 h2 => ?_, rfl, rfl, rfl⟩
  · by_cases h : (strTruthy p.link && jsStartsWith (p.link.getD "") "http") = true
    · simp [renderProject, h]
    · simp only [Bool.not_eq_true] at h
      simp [renderProject, h]
  · simp [renderProject, h1, h2]

/-- Witness for C10 at a project whose link is a nonempty SSH remote (does
    not start with "http"): no anchor is rendered. -/
theorem preview_link_gating_witness :
    (renderProject ⟨"T", "d", ["a"], some "git@github.com:u/r"⟩).linkAnchor = none :=
  (preview_link_gating ⟨"T", "d", ["a"], some "git@github.com:u/r"⟩ none none).2.1 rfl (by decide)

/-- parseDate of the empty string is null. -/
theorem parseDate_empty : parseDate "" = none := by decide

/-- C7: editing an experience start or end date whose resulting entry has
    both dates parseable as month/year with the start chronologically after
    the end is rejected — an alert message is surfaced and the experience
    list is returned unchanged, not silently corrected; an end date equal to
    "present" in any letter case is exempt from the check and the edit is
    stored. -/
theorem updateExp_date_validation :
    ∀ (prev : List ExpEntry) (i : Nat) (f : ExpField) (v : String) (old : ExpEntry) (sm em : Int),
      (prev.get? i = some old →
        (f = ExpField.start_date ∨ f = ExpField.end_date) →
        parseDate (setExpField old f v).start_date = some (some sm) →
        parseDate (setExpField old f v).end_date = some (some em) →
        jsToLower (setExpField old f v).end_date ≠ "present" →
        sm > em →
        updateExp prev i f v = (prev, some "Start date cannot be after end date."))
      ∧ (prev.get? i = some old →
        (f = ExpField.start_date ∨ f = ExpField.end_date) →
        jsToLower (setExpField old f v).end_date = "present" →
        updateExp prev i f v = (prev.set i (setExpField old f v), none)) := by
  intro prev i f v old sm em
  constructor
  · intro hget hf hps hpe hpresent hgt
    have hs : (setExpField old f v).start_date ≠ "" := by
      intro h
      rw [h, parseDate_empty] at hps
      exact Option.noConfusion hps
    have he : (setExpField old f v).end_date ≠ "" := by
      intro h
      rw [h, parseDate_empty] at hpe
      exact Option.noConfusion hpe
    rcases hf with hf | hf <;> subst hf <;>
      · simp only [updateExp, hget]
        rw [if_pos ⟨hs, he, hpresent⟩, hps, hpe]
        simp [dateGt, hgt]
  · intro hget hf hpresent
    rcases hf with hf | hf <;> subst hf <;>
      · simp only [updateExp, hget]
        rw [if_neg]
        intro hc
        exact hc.2.2 hpresent

/-- Witness for C7: setting an end date of 01/2020 against a start date of
    02/2021 is rejected with the alert and the list kept; setting the end
    date to "PRESENT" is exempt and stored. -/
theorem updateExp_date_validation_witness :
    (updateExp [⟨"Dev", "Acme", "", "02/2021", "", "x"⟩] 0 ExpField.end_date "01/2020"
      = ([⟨"Dev", "Acme", "", "02/2021", "", "x"⟩], some "Start date cannot be after end date."))
    ∧ (updateExp [⟨"Dev", "Acme", "", "02/2021", "", "x"⟩] 0 ExpField.end_date "PRESENT"
      = ([⟨"Dev", "Acme", "", "02/2021", "PRESENT", "x"⟩], none)) :=
  ⟨(updateExp_date_validation [⟨"Dev", "Acme", "", "02/2021", "", "x"⟩] 0
      ExpField.end_date "01/2020" ⟨"Dev", "Acme", "", "02/2021", "", "x"⟩
      (2021 * 12 + 1) (2020 * 12 + 0)).1 rfl (Or.inr rfl) (by decide) (by decide)
      (by decide) (by decide),
   (updateExp_date_validation [⟨"Dev", "Acme", "", "02/2021", "", "x"⟩] 0
      ExpField.end_date "PRESENT" ⟨"Dev", "Acme", "", "02/2021", "", "x"⟩ 0 0).2
      rfl (Or.inr rfl) (by decide)⟩

/-- mergeProject never changes the project's title. -/
theorem mergeProject_title (os : List ProjectEntry) (p : ProjectEntry) :
    (mergeProject os p).title = p.title := by
  unfold mergeProject
  cases h : byTitleGet os (jsToLower p.title) with
  | none => rfl
  | some orig =>
      dsimp only
      split <;> rfl

/-- When the lookup hits an original with a truthy link and the rewrite's
    link is falsy, mergeProject patches the link in. -/
theorem mergeProject_patch (os : List ProjectEntry) (p q : ProjectEntry)
    (hbt : byTitleGet os (jsToLower p.title) = some q)
    (hplink : strTruthy p.link = false) (hqlink : strTruthy q.link = true) :
    mergeProject os p = { p with link := q.link } := by
  unfold mergeProject
  rw [hbt]
  dsimp only
  rw [if_pos]
  rw [hplink, hqlink]
  rfl

/-- When the patch condition is false, mergeProject returns the rewrite's
    project unchanged. -/
theorem mergeProject_keep (os : List ProjectEntry) (p q : ProjectEntry)
    (hbt : byTitleGet os (jsToLower p.title) = some q)
    (hc : (!strTruthy p.link && strTruthy q.link) = false) :
    mergeProject os p = p := by
  unfold mergeProject
  rw [hbt]
  dsimp only
  rw [if_neg]
  rw [hc]
  exact Bool.false_ne_true

/-- A rewritten project whose own link is truthy is never modified. -/
theorem mergeProject_keepTruthy (os : List ProjectEntry) (p : ProjectEntry)
    (hp : strTruthy p.link = true) : mergeProject os p = p := by
  unfold mergeProject
  cases h : byTitleGet os (jsToLower p.title) with
  | none => rfl
  | some orig =>
      dsimp only
      rw [if_neg]
      rw [hp]
      simp

/-- C1 (amended: the lookup keyed by lower-cased title retains the LAST
    original with a given title, later duplicates overwriting earlier ones):
    each rewritten project with an empty link whose title resolves, case-
    insensitively, to an original project with a link is patched with that
    original link; consequently the merged result never contains a project
    with an empty link where the original project the title resolves to had
    one. -/
theorem merge_patches_and_preserves_links :
    ∀ (original rewritten : ResumeData),
      (∀ (i : Nat) (p q : ProjectEntry),
        rewritten.projects.get? i = some p →
        strTruthy p.link = false →
        byTitleGet original.projects (jsToLower p.title) = some q →
        strTruthy q.link = true →
        (mergeOptimized original rewritten).projects.get? i = some { p with link := q.link })
      ∧ (∀ p, p ∈ (mergeOptimized original rewritten).projects →
          strTruthy p.link = false →
          ∀ q, byTitleGet original.projects (jsToLower p.title) = some q →
          strTruthy q.link = false) := by
  intro original rewritten
  have hm : (mergeOptimized original rewritten).projects
      = rewritten.projects.map (mergeProject original.projects) := rfl
  constructor
  · intro i p q hget hplink hbt hqlink
    rw [hm, List.get?_eq_getElem?, List.getElem?_map]
    rw [List.get?_eq_getElem?] at hget
    rw [hget]
    simp only [Option.map_some']
    rw [mergeProject_patch original.projects p q hbt hplink hqlink]
  · intro p hp hplink q hbt
    rw [hm] at hp
    obtain ⟨p0, hp0, rfl⟩ := List.mem_map.mp hp
    rw [mergeProject_title] at hbt
    by_cases hc : (!strTruthy p0.link && strTruthy q.link) = true
    · simp only [Bool.and_eq_true] at hc
      obtain ⟨h1, h2⟩ := hc
      have hpl : strTruthy p0.link = false := by
        cases hb : strTruthy p0.link
        · rfl
        · rw [hb] at h1
          simp at h1
      rw [mergeProject_patch original.projects p0 q hbt hpl h2] at hplink
      have h3 : strTruthy q.link = false := hplink
      rw [h3] at h2
      exact Bool.noConfusion h2
    · have hcf : (!strTruthy p0.link && strTruthy q.link) = false := by
        cases hb : (!strTruthy p0.link && strTruthy q.link)
        · rfl
        · exact absurd hb hc
      rw [mergeProject_keep original.projects p0 q hbt hcf] at hplink
      cases hq : strTruthy q.link
      · rfl
      · exfalso
        rw [hplink, hq] at hcf
        simp at hcf

/-- Witness for C1: a rewrite project "chess bot" with no link is patched
    with the link of the original "Chess Bot" (case-insensitive match), and
    in a merge whose resolved original has no link, the surviving empty link
    is explained by that original's empty link. -/
theorem merge_patches_and_preserves_links_witness :
    ((mergeOptimized { emptyResume with projects := [⟨"Chess Bot", "", [], some "http://gh"⟩] }
        { emptyResume with projects := [⟨"chess bot", "d", ["t"], none⟩] }).projects.get? 0
      = some { title := "chess bot", description := "d", technologies := ["t"], link := some "http://gh" })
    ∧ strTruthy (ProjectEntry.mk "x" "" [] none).link = false :=
  ⟨(merge_patches_and_preserves_links
      { emptyResume with projects := [⟨"Chess Bot", "", [], some "http://gh"⟩] }
      { emptyResume with projects := [⟨"chess bot", "d", ["t"], none⟩] }).1
      0 ⟨"chess bot", "d", ["t"], none⟩ ⟨"Chess Bot", "", [], some "http://gh"⟩
      rfl rfl (by decide) rfl,
   (merge_patches_and_preserves_links
      { emptyResume with projects := [⟨"x", "", [], none⟩] }
      { emptyResume with projects := [⟨"x", "", [], none⟩] }).2
      ⟨"x", "", [], none⟩ (by decide) rfl ⟨"x", "", [], none⟩ (by decide)⟩

/-- Counterexample to C1 as stated: two original projects share the title
    "x" case-insensitively; the first has a link, the last does not.  The
    rewritten project "X" with an empty link is NOT patched (the lookup
    resolves to the last duplicate, which has no link), so the merged result
    contains a project with an empty link even though a title-matched
    original project had one. -/
theorem merge_can_drop_link_on_duplicate_titles :
    (mergeOptimized
        { emptyResume with projects := [⟨"X", "", [], some "http://a"⟩, ⟨"x", "", [], none⟩] }
        { emptyResume with projects := [⟨"X", "d", [], none⟩] }).projects
      = [⟨"X", "d", [], none⟩]
    ∧ jsToLower "X" = jsToLower "X"
    ∧ strTruthy (some "http://a") = true
    ∧ strTruthy (none : Option String) = false := by
  refine ⟨by decide, rfl, rfl, rfl⟩

/-- C2 (amended): the reconciliation merges back only what the rewrite
    DROPPED — a falsy (absent/empty) linkedin, location or project link is
    restored from the pre-rewrite record, matching projects by
    case-insensitive title; a value the rewrite altered to a different
    non-empty value is kept from the rewrite, not reverted. -/
theorem merge_restores_dropped_fields :
    ∀ (original rewritten : ResumeData),
      (strTruthy rewritten.linkedin = false → strTruthy original.linkedin = true →
        (mergeOptimized original rewritten).linkedin = original.linkedin)
      ∧ (strTruthy rewritten.linkedin = true →
        (mergeOptimized original rewritten).linkedin = rewritten.linkedin)
      ∧ (strTruthy rewritten.location = false → strTruthy original.location = true →
        (mergeOptimized original rewritten).location = original.location)
      ∧ (strTruthy rewritten.location = true →
        (mergeOptimized original rewritten).location = rewritten.location)
      ∧ (∀ (i : Nat) (p q : ProjectEntry),
          rewritten.projects.get? i = some p →
          strTruthy p.link = false →
          byTitleGet original.projects (jsToLower p.title) = some q →
          strTruthy q.link = true →
          (mergeOptimized original rewritten).projects.get? i
            = some { p with link := q.link })
      ∧ (∀ (i : Nat) (p : ProjectEntry),
          rewritten.projects.get? i = some p →
          strTruthy p.link = true →
          (mergeOptimized original rewritten).projects.get? i = some p) := by
  intro original rewritten
  refine ⟨fun hr ho => ?_, fun hr => ?_, fun hr ho => ?_, fun hr => ?_,
          fun i p q hget hplink hbt hqlink => ?_, fun i p hget hplink => ?_⟩
  · show some (jsOr2 rewritten.linkedin original.linkedin) = original.linkedin
    cases hol : original.linkedin with
    | none => rw [hol] at ho; exact Bool.noConfusion ho
    | some s =>
        rw [hol] at ho
        simp [jsOr2, hr, ho]
  · show some (jsOr2 rewritten.linkedin original.linkedin) = rewritten.linkedin
    cases hrl : rewritten.linkedin with
    | none => rw [hrl] at hr; exact Bool.noConfusion hr
    | some s =>
        rw [hrl] at hr
        simp [jsOr2, hr]
  · show some (jsOr2 rewritten.location original.location) = original.location
    cases hol : original.location with
    | none => rw [hol] at ho; exact Bool.noConfusion ho
    | some s =>
        rw [hol] at ho
        simp [jsOr2, hr, ho]
  · show some (jsOr2 rewritten.location original.location) = rewritten.location
    cases hrl : rewritten.location with
    | none => rw [hrl] at hr; exact Bool.noConfusion hr
    | some s =>
        rw [hrl] at hr
        simp [jsOr2, hr]
  · have hm : (mergeOptimized original rewritten).projects
        = rewritten.projects.map (mergeProject original.projects) := rfl
    rw [hm, List.get?_eq_getElem?, List.getElem?_map]
    rw [List.get?_eq_getElem?] at hget
    rw [hget]
    simp only [Option.map_some']
    rw [mergeProject_patch original.projects p q hbt hplink hqlink]
  · have hm : (mergeOptimized original rewritten).projects
        = rewritten.projects.map (mergeProject original.projects) := rfl
    rw [hm, List.get?_eq_getElem?, List.getElem?_map]
    rw [List.get?_eq_getElem?] at hget
    rw [hget]
    simp only [Option.map_some']
    rw [mergeProject_keepTruthy original.projects p hplink]

/-- Witness for C2: a dropped linkedin is restored from the original, and a
    dropped project link is restored by title match. -/
theorem merge_restores_dropped_fields_witness :
    ((mergeOptimized { emptyResume with linkedin := some "https://li/in" }
        { emptyResume with linkedin := none }).linkedin = some "https://li/in")
    ∧ ((mergeOptimized { emptyResume with projects := [⟨"P", "", [], some "http://p"⟩] }
        { emptyResume with projects := [⟨"P", "d", [], some ""⟩] }).projects.get? 0
      = some { title := "P", description := "d", technologies := [], link := some "http://p" }) :=
  ⟨(merge_restores_dropped_fields { emptyResume with linkedin := some "https://li/in" }
      { emptyResume with linkedin := none }).1 rfl rfl,
   (merge_restores_dropped_fields { emptyResume with projects := [⟨"P", "", [], some "http://p"⟩] }
      { emptyResume with projects := [⟨"P", "d", [], some ""⟩] }).2.2.2.2.1
      0 ⟨"P", "d", [], some ""⟩ ⟨"P", "", [], some "http://p"⟩ rfl rfl (by decide) rfl⟩

/-- Counterexample to C2 as stated: the rewrite ALTERED the linkedin field
    to a different non-empty value, yet the merged output keeps the
    rewrite's value instead of the original's — altered fields are not
    merged back. -/
theorem merge_keeps_altered_linkedin :
    ((mergeOptimized { emptyResume with linkedin := some "https://linkedin.com/in/old" }
        { emptyResume with linkedin := some "https://linkedin.com/in/new" }).linkedin
      = some "https://linkedin.com/in/new")
    ∧ some "https://linkedin.com/in/new" ≠ some ("https://linkedin.com/in/old" : String) := by
  refine ⟨by decide, by decide⟩

/-- C3 (amended: LAST match wins): when the rewritten project's empty link
    is patched, the link is taken from the last original project whose
    nonempty title equals the rewrite's title case-insensitively — the
    Map built over the originals lets later duplicate titles overwrite
    earlier ones. -/
theorem merge_patch_uses_last_title_match :
    ∀ (original rewritten : ResumeData) (i : Nat) (p q : ProjectEntry),
      rewritten.projects.get? i = some p →
      strTruthy p.link = false →
      (original.projects.filter
          (fun o => o.title != "" && jsToLower o.title == jsToLower p.title)).getLast? = some q →
      strTruthy q.link = true →
      (mergeOptimized original rewritten).projects.get? i = some { p with link := q.link } := by
  intro original rewritten i p q hget hplink hfilter hqlink
  have hbt : byTitleGet original.projects (jsToLower p.title) = some q := hfilter
  have hm : (mergeOptimized original rewritten).projects
      = rewritten.projects.map (mergeProject original.projects) := rfl
  rw [hm, List.get?_eq_getElem?, List.getElem?_map]
  rw [List.get?_eq_getElem?] at hget
  rw [hget]
  simp only [Option.map_some']
  rw [mergeProject_patch original.projects p q hbt hplink hqlink]

/-- Witness for C3: with two originals titled "x", the patch takes the
    second (last) one's link. -/
theorem merge_patch_uses_last_title_match_witness :
    (mergeOptimized
        { emptyResume with projects := [⟨"x", "", [], some "http://A"⟩, ⟨"x", "", [], some "http://B"⟩] }
        { emptyResume with projects := [⟨"x", "d", [], none⟩] }).projects.get? 0
      = some { title := "x", description := "d", technologies := [], link := some "http://B" } :=
  merge_patch_uses_last_title_match
    { emptyResume with projects := [⟨"x", "", [], some "http://A"⟩, ⟨"x", "", [], some "http://B"⟩] }
    { emptyResume with projects := [⟨"x", "d", [], none⟩] }
    0 ⟨"x", "d", [], none⟩ ⟨"x", "", [], some "http://B"⟩ rfl rfl (by decide) rfl

/-- Counterexample to C3 as stated (first match wins): of two originals
    titled "x" with links "http://first" and "http://last", the rewritten
    "x" with an empty link is patched with "http://last", the LAST match,
    not the first. -/
theorem merge_patch_not_first_match :
    ((mergeOptimized
        { emptyResume with projects := [⟨"x", "", [], some "http://first"⟩, ⟨"x", "", [], some "http://last"⟩] }
        { emptyResume with projects := [⟨"x", "d", [], none⟩] }).projects
      = [⟨"x", "d", [], some "http://last"⟩])
    ∧ ({ emptyResume with projects := [⟨"x", "", [], some "http://first"⟩, ⟨"x", "", [], some "http://last"⟩] }
        : ResumeData).projects.get? 0 = some ⟨"x", "", [], some "http://first"⟩
    ∧ ("http://last" : String) ≠ "http://first" := by
  refine ⟨by decide, by decide, by decide⟩
